import Mathlib

/-!
Verification of the intent-dispatch core of an Alexa skill backend
(`main.go`).  The program holds a connection to a document store of
recipe documents and dispatches incoming Alexa requests by intent name:
an exact-name lookup (`GetIngredientsForRecipeIntent`), a
containment search over ingredients (`GetRecipeFromIngredientsIntent`),
a static about response (`AboutIntent`), and a default case for every
other intent name.

The embedding below translates `IntentDispatcher` and the store
operations it performs.  The document store is modelled as the list of
documents of the `recipes` collection together with injectable
driver-level failures (network or decode errors that the Go driver can
report for `FindOne(..).Decode`, `Find`, and `cursor.All`); the
invocation context is modelled by its cancellation flag.  The dispatch
outcome records the returned response, the returned error, and the
number of store queries issued during the invocation.
-/

namespace AlexaGo

/-- A recipe document (`Recipe` in `main.go`): a store-assigned opaque
identifier, a name used as an exact-match lookup key, and an ordered
sequence of ingredient strings. -/
structure Recipe where
  id : Nat
  name : String
  ingredients : List String
deriving DecidableEq, Repr

/-- An incoming Alexa request, reduced to the parts `IntentDispatcher`
reads: the intent name and the slot map.  Slots are an association list
from slot name to slot value; in Go, indexing the slot map with an
absent key yields the zero-valued slot, whose `Value` field is `""`. -/
structure Request where
  intentName : String
  slots : List (String × String)
deriving DecidableEq, Repr

/-- Reading `request.Body.Intent.Slots[key].Value`: the value of the
slot when present, `""` when the key is absent (Go zero value). -/
def getSlotValue (slots : List (String × String)) (key : String) : String :=
  match slots.lookup key with
  | some v => v
  | none => ""

/-- An Alexa response, reduced to the fields `NewSimpleResponse`
shapes: the card title and the spoken body.  The zero value
`alexa.Response\x7b\x7d` returned on error paths has both fields empty. -/
structure Response where
  title : String
  body : String
deriving DecidableEq, Repr

/-- The zero-valued response `alexa.Response\x7b\x7d` returned alongside
errors. -/
def Response.empty : Response := ⟨"", ""⟩

/-- Embeds `alexa.NewSimpleResponse title body`. -/
def NewSimpleResponse (title body : String) : Response := ⟨title, body⟩

/-- The errors `IntentDispatcher` can return: the `errors.New` value for
a missing recipe slot, `mongo.ErrNoDocuments` from a failed exact
lookup, context cancellation, and any other driver-reported failure. -/
inductive DispatchError where
  | invalidInput (msg : String)
  | errNoDocuments
  | contextCanceled
  | driver (msg : String)
deriving DecidableEq, Repr

/-- The invocation context, modelled by whether it has been canceled. -/
structure Ctx where
  canceled : Bool
deriving DecidableEq, Repr

/-- The document store behind the shared `Connection`: the documents of
the `recipes` collection in natural order, together with injectable
driver-level failures for each of the three driver operations the
dispatcher performs (`none` means the operation succeeds normally). -/
structure Store where
  docs : List Recipe
  findOneErr : Option String
  findErr : Option String
  cursorAllErr : Option String
deriving DecidableEq, Repr

/-- Embeds `recipesCollection.FindOne(ctx, bson.M\x7b"name": name\x7d).Decode(&recipe)`:
fails if the context is canceled or the driver reports a failure,
returns `mongo.ErrNoDocuments` when no document's name matches, and
otherwise returns the first matching document in natural order. -/
def findOne (ctx : Ctx) (store : Store) (name : String) :
    Except DispatchError Recipe :=
  if ctx.canceled then .error .contextCanceled
  else
    match store.findOneErr with
    | some m => .error (.driver m)
    | none =>
      match store.docs.find? (fun r => r.name == name) with
      | some r => .ok r
      | none => .error .errNoDocuments

/-- Embeds `recipesCollection.Find(ctx, bson.M\x7b"ingredients": bson.D\x7b\x7b"$all",
bson.A\x7bi1, i2\x7d\x7d\x7d\x7d)`: fails if the context is canceled or the driver
reports a failure, otherwise returns (as the cursor's contents) every
document whose ingredients array contains both query values, in natural
order.  MongoDB `$all` requires each listed value to occur in the
array; order is irrelevant and additional elements are allowed. -/
def findAll (ctx : Ctx) (store : Store) (i1 i2 : String) :
    Except DispatchError (List Recipe) :=
  if ctx.canceled then .error .contextCanceled
  else
    match store.findErr with
    | some m => .error (.driver m)
    | none =>
      .ok (store.docs.filter
        (fun r => r.ingredients.contains i1 && r.ingredients.contains i2))

/-- Embeds `cursor.All(ctx, &recipes)`: drains the cursor into a slice; fails
if the context is canceled or decoding a document fails. -/
def cursorAll (ctx : Ctx) (store : Store) (docs : List Recipe) :
    Except DispatchError (List Recipe) :=
  if ctx.canceled then .error .contextCanceled
  else
    match store.cursorAllErr with
    | some m => .error (.driver m)
    | none => .ok docs

/-- What one invocation of `IntentDispatcher` produced: the returned
`alexa.Response`, the returned `error` (`none` for Go `nil`), and the
number of store queries issued during the invocation (a `Find` together
with draining its cursor counts as the one query it is). -/
structure DispatchOutcome where
  response : Response
  error : Option DispatchError
  queries : Nat
deriving DecidableEq, Repr

/-- Embeds `Connection.IntentDispatcher` from `main.go`: the switch
over the intent name, translated case by case. -/
def IntentDispatcher (ctx : Ctx) (connection : Store) (request : Request) :
    DispatchOutcome :=
  if request.intentName = "GetIngredientsForRecipeIntent" then
    let recipeName := getSlotValue request.slots "recipe"
    if recipeName = "" then
      { response := Response.empty,
        error := some (.invalidInput "Recipe name is not present in the request"),
        queries := 0 }
    else
      match findOne ctx connection recipeName with
      | .error e => { response := Response.empty, error := some e, queries := 1 }
      | .ok recipe =>
        { response :=
            NewSimpleResponse "Ingredients" (String.intercalate ", " recipe.ingredients),
          error := none, queries := 1 }
  else if request.intentName = "GetRecipeFromIngredientsIntent" then
    let ingredient1 := getSlotValue request.slots "ingredientone"
    let ingredient2 := getSlotValue request.slots "ingredienttwo"
    match findAll ctx connection ingredient1 ingredient2 with
    | .error e => { response := Response.empty, error := some e, queries := 1 }
    | .ok cursor =>
      match cursorAll ctx connection cursor with
      | .error e => { response := Response.empty, error := some e, queries := 1 }
      | .ok recipes =>
        let recipeList := recipes.foldl (fun acc r => acc ++ r.name) ""
        { response := NewSimpleResponse "Recipes" recipeList,
          error := none, queries := 1 }
  else if request.intentName = "AboutIntent" then
    { response := NewSimpleResponse "About" "Created by Nic Raboy in Tracy, CA",
      error := none, queries := 0 }
  else
    { response := NewSimpleResponse "Unknown Request" "The intent was unrecognized",
      error := none, queries := 0 }

/-- Specification-side form of the body built by the
`GetRecipeFromIngredientsIntent` loop: the names of the listed recipes
concatenated in order with no separator. -/
def concatNames : List Recipe → String
  | [] => ""
  | r :: rs => r.name ++ concatNames rs

theorem foldl_name_eq_concatNames (l : List Recipe) (s : String) :
    l.foldl (fun acc r => acc ++ r.name) s = s ++ concatNames l := by
  induction l generalizing s with
  | nil => simp [concatNames]
  | cons a t ih => simp [concatNames, ih, String.append_assoc]

theorem filter_both_eq_filter_mem (docs : List Recipe) (i1 i2 : String) :
    docs.filter (fun r => r.ingredients.contains i1 && r.ingredients.contains i2) =
      docs.filter (fun r => decide (i1 ∈ r.ingredients ∧ i2 ∈ r.ingredients)) := by
  apply List.filter_congr
  intro r _
  simp [List.elem_iff]

/-- Claim C1: for every request whose intent name is not one of
`GetIngredientsForRecipeIntent`, `GetRecipeFromIngredientsIntent`,
`AboutIntent` (including the empty string and case-variants of those
names), the dispatcher returns the response titled "Unknown Request"
with body "The intent was unrecognized", a nil error, and performs no
store query. -/
theorem unknown_intent_default (ctx : Ctx) (store : Store) (request : Request)
    (h : request.intentName ∉
      (["GetIngredientsForRecipeIntent", "GetRecipeFromIngredientsIntent",
        "AboutIntent"] : List String)) :
    IntentDispatcher ctx store request =
      { response := ⟨"Unknown Request", "The intent was unrecognized"⟩,
        error := none, queries := 0 } := by
  simp only [List.mem_cons, List.mem_singleton, not_or, List.not_mem_nil,
    not_false_iff, and_true] at h
  obtain ⟨h1, h2, h3⟩ := h
  simp [IntentDispatcher, NewSimpleResponse, h1, h2, h3]

/-- Witness for C1: a case-variant of a known intent name hits the
default case and issues no query. -/
theorem unknown_intent_default_witness :
    IntentDispatcher ⟨false⟩ ⟨[], none, none, none⟩
        ⟨"getingredientsforrecipeintent", []⟩ =
      { response := ⟨"Unknown Request", "The intent was unrecognized"⟩,
        error := none, queries := 0 } :=
  unknown_intent_default ⟨false⟩ ⟨[], none, none, none⟩
    ⟨"getingredientsforrecipeintent", []⟩ (by decide)

/-- Claim C2: `GetIngredientsForRecipeIntent` with the `recipe` slot
absent, or present with value `""`, returns the invalid-input failure,
the empty response, and performs no store query. -/
theorem missing_recipe_slot (ctx : Ctx) (store : Store) (request : Request)
    (hintent : request.intentName = "GetIngredientsForRecipeIntent")
    (hslot : request.slots.lookup "recipe" = none ∨
      request.slots.lookup "recipe" = some "") :
    IntentDispatcher ctx store request =
      { response := Response.empty,
        error := some (.invalidInput "Recipe name is not present in the request"),
        queries := 0 } := by
  have hv : getSlotValue request.slots "recipe" = "" := by
    rcases hslot with h1 | h1 <;> simp [getSlotValue, h1]
  simp [IntentDispatcher, hintent, hv]

/-- Witness for C2: an empty `recipe` slot value is rejected with no
query issued. -/
theorem missing_recipe_slot_witness :
    IntentDispatcher ⟨false⟩ ⟨[], none, none, none⟩
        ⟨"GetIngredientsForRecipeIntent", [("recipe", "")]⟩ =
      { response := Response.empty,
        error := some (.invalidInput "Recipe name is not present in the request"),
        queries := 0 } :=
  missing_recipe_slot ⟨false⟩ ⟨[], none, none, none⟩
    ⟨"GetIngredientsForRecipeIntent", [("recipe", "")]⟩ rfl (Or.inr rfl)

/-- Claim C3: `GetIngredientsForRecipeIntent` with a non-empty `recipe`
slot, when the store contains a document whose name equals the slot
value exactly, succeeds with title "Ingredients" and body equal to the
found document's ingredients joined with ", " in stored order. -/
theorem ingredients_lookup_found (ctx : Ctx) (store : Store) (request : Request)
    (d : Recipe)
    (hintent : request.intentName = "GetIngredientsForRecipeIntent")
    (hctx : ctx.canceled = false)
    (herr : store.findOneErr = none)
    (hne : getSlotValue request.slots "recipe" ≠ "")
    (hd : d ∈ store.docs)
    (hname : d.name = getSlotValue request.slots "recipe") :
    ∃ r, store.docs.find?
        (fun x => x.name == getSlotValue request.slots "recipe") = some r ∧
      r.name = getSlotValue request.slots "recipe" ∧
      IntentDispatcher ctx store request =
        { response := ⟨"Ingredients", String.intercalate ", " r.ingredients⟩,
          error := none, queries := 1 } := by
  have hsome : (store.docs.find?
      (fun x => x.name == getSlotValue request.slots "recipe")).isSome := by
    rw [List.find?_isSome]
    exact ⟨d, hd, by simp [hname]⟩
  obtain ⟨r, hr⟩ := Option.isSome_iff_exists.mp hsome
  refine ⟨r, hr, ?_, ?_⟩
  · have := List.find?_some hr
    simpa using this
  · simp [IntentDispatcher, hintent, hne, findOne, hctx, herr, hr, NewSimpleResponse]

/-- Witness for C3: a one-document store; the joined body lists the
ingredients separated by ", ". -/
theorem ingredients_lookup_found_witness :
    ∃ r, ([⟨1, "chocolate chip cookies", ["flour", "egg", "sugar", "chocolate"]⟩] :
          List Recipe).find?
        (fun x => x.name == getSlotValue [("recipe", "chocolate chip cookies")] "recipe")
          = some r ∧
      r.name = getSlotValue [("recipe", "chocolate chip cookies")] "recipe" ∧
      IntentDispatcher ⟨false⟩
          ⟨[⟨1, "chocolate chip cookies", ["flour", "egg", "sugar", "chocolate"]⟩],
            none, none, none⟩
          ⟨"GetIngredientsForRecipeIntent", [("recipe", "chocolate chip cookies")]⟩ =
        { response := ⟨"Ingredients", String.intercalate ", " r.ingredients⟩,
          error := none, queries := 1 } :=
  ingredients_lookup_found ⟨false⟩
    ⟨[⟨1, "chocolate chip cookies", ["flour", "egg", "sugar", "chocolate"]⟩],
      none, none, none⟩
    ⟨"GetIngredientsForRecipeIntent", [("recipe", "chocolate chip cookies")]⟩
    ⟨1, "chocolate chip cookies", ["flour", "egg", "sugar", "chocolate"]⟩
    rfl rfl rfl (by decide) (by simp) rfl

/-- Claim C4: `GetRecipeFromIngredientsIntent` with any slot values
(empty values permitted, no invalid-input failure) succeeds with title
"Recipes" and a body that concatenates, in result order with no
separator, the names of exactly the documents whose ingredients contain
both supplied values (order-independent, extras allowed), issuing one
query. -/
theorem recipes_from_ingredients (ctx : Ctx) (store : Store) (request : Request)
    (hintent : request.intentName = "GetRecipeFromIngredientsIntent")
    (hctx : ctx.canceled = false)
    (hfe : store.findErr = none)
    (hce : store.cursorAllErr = none) :
    IntentDispatcher ctx store request =
      { response := ⟨"Recipes",
          concatNames (store.docs.filter (fun r =>
            decide (getSlotValue request.slots "ingredientone" ∈ r.ingredients ∧
              getSlotValue request.slots "ingredienttwo" ∈ r.ingredients)))⟩,
        error := none, queries := 1 } := by
  rw [← filter_both_eq_filter_mem]
  simp [IntentDispatcher, hintent, findAll, cursorAll, hctx, hfe, hce,
    NewSimpleResponse, foldl_name_eq_concatNames]

/-- Witness for C4: the two-document store from the spec's example;
only the superset match "A" appears in the body. -/
theorem recipes_from_ingredients_witness :
    IntentDispatcher ⟨false⟩
        ⟨[⟨1, "A", ["egg", "flour", "sugar"]⟩, ⟨2, "B", ["egg"]⟩], none, none, none⟩
        ⟨"GetRecipeFromIngredientsIntent",
          [("ingredientone", "egg"), ("ingredienttwo", "flour")]⟩ =
      { response := ⟨"Recipes",
          concatNames (([⟨1, "A", ["egg", "flour", "sugar"]⟩, ⟨2, "B", ["egg"]⟩] :
              List Recipe).filter (fun r =>
            decide (getSlotValue
                [("ingredientone", "egg"), ("ingredienttwo", "flour")] "ingredientone"
                ∈ r.ingredients ∧
              getSlotValue
                [("ingredientone", "egg"), ("ingredienttwo", "flour")] "ingredienttwo"
                ∈ r.ingredients)))⟩,
        error := none, queries := 1 } :=
  recipes_from_ingredients ⟨false⟩
    ⟨[⟨1, "A", ["egg", "flour", "sugar"]⟩, ⟨2, "B", ["egg"]⟩], none, none, none⟩
    ⟨"GetRecipeFromIngredientsIntent",
      [("ingredientone", "egg"), ("ingredienttwo", "flour")]⟩
    rfl rfl rfl rfl

/-- Claim C5: absence of results is asymmetric.  When the exact-name
lookup finds no document, the dispatcher propagates a not-found failure
with the empty response; when the ingredient search matches zero
documents, it succeeds with title "Recipes" and an empty body. -/
theorem absence_asymmetry :
    (∀ (ctx : Ctx) (store : Store) (request : Request),
      request.intentName = "GetIngredientsForRecipeIntent" →
      ctx.canceled = false → store.findOneErr = none →
      getSlotValue request.slots "recipe" ≠ "" →
      (∀ d ∈ store.docs, d.name ≠ getSlotValue request.slots "recipe") →
      IntentDispatcher ctx store request =
        { response := Response.empty, error := some .errNoDocuments, queries := 1 }) ∧
    (∀ (ctx : Ctx) (store : Store) (request : Request),
      request.intentName = "GetRecipeFromIngredientsIntent" →
      ctx.canceled = false → store.findErr = none → store.cursorAllErr = none →
      (∀ d ∈ store.docs,
        ¬(getSlotValue request.slots "ingredientone" ∈ d.ingredients ∧
          getSlotValue request.slots "ingredienttwo" ∈ d.ingredients)) →
      IntentDispatcher ctx store request =
        { response := ⟨"Recipes", ""⟩, error := none, queries := 1 }) := by
  constructor
  · intro ctx store request hintent hctx herr hne hnone
    have hfind : store.docs.find?
        (fun x => x.name == getSlotValue request.slots "recipe") = none := by
      rw [List.find?_eq_none]
      intro d hd
      simp [hnone d hd]
    simp [IntentDispatcher, hintent, hne, findOne, hctx, herr, hfind]
  · intro ctx store request hintent hctx hfe hce hnone
    have hfilter : store.docs.filter (fun r =>
        decide (getSlotValue request.slots "ingredientone" ∈ r.ingredients) &&
        decide (getSlotValue request.slots "ingredienttwo" ∈ r.ingredients)) = [] := by
      rw [List.filter_eq_nil_iff]
      intro d hd
      simpa using hnone d hd
    simp [IntentDispatcher, hintent, findAll, cursorAll, hctx, hfe, hce,
      hfilter, NewSimpleResponse, concatNames]

/-- Witness for C5: on an empty store the lookup fails with not-found
and the search succeeds with an empty body. -/
theorem absence_asymmetry_witness :
    IntentDispatcher ⟨false⟩ ⟨[], none, none, none⟩
        ⟨"GetIngredientsForRecipeIntent", [("recipe", "brownies")]⟩ =
      { response := Response.empty, error := some .errNoDocuments, queries := 1 } ∧
    IntentDispatcher ⟨false⟩ ⟨[], none, none, none⟩
        ⟨"GetRecipeFromIngredientsIntent", []⟩ =
      { response := ⟨"Recipes", ""⟩, error := none, queries := 1 } :=
  ⟨absence_asymmetry.1 ⟨false⟩ ⟨[], none, none, none⟩
      ⟨"GetIngredientsForRecipeIntent", [("recipe", "brownies")]⟩
      rfl rfl rfl (by decide) (by simp),
    absence_asymmetry.2 ⟨false⟩ ⟨[], none, none, none⟩
      ⟨"GetRecipeFromIngredientsIntent", []⟩
      rfl rfl rfl rfl (by simp)⟩

/-- Claim C6: `AboutIntent`, whatever slots are present, returns the
fixed response titled "About" with its static body, a nil error, and
performs no store query. -/
theorem about_intent_fixed (ctx : Ctx) (store : Store)
    (slots : List (String × String)) :
    IntentDispatcher ctx store ⟨"AboutIntent", slots⟩ =
      { response := ⟨"About", "Created by Nic Raboy in Tracy, CA"⟩,
        error := none, queries := 0 } := by
  simp [IntentDispatcher, NewSimpleResponse]

/-- Claim C7: when the context is canceled, every case that would query
the store returns a failure with the empty response rather than a stale
or partial result. -/
theorem canceled_context_fails (ctx : Ctx) (store : Store) (request : Request)
    (hc : ctx.canceled = true)
    (h : (request.intentName = "GetIngredientsForRecipeIntent" ∧
          getSlotValue request.slots "recipe" ≠ "") ∨
         request.intentName = "GetRecipeFromIngredientsIntent") :
    (IntentDispatcher ctx store request).error ≠ none ∧
    (IntentDispatcher ctx store request).response = Response.empty := by
  rcases h with ⟨h1, h2⟩ | h1
  · simp [IntentDispatcher, h1, h2, findOne, hc]
  · simp [IntentDispatcher, h1, findAll, hc]

/-- Witness for C7: a pre-canceled context makes the ingredient search
return a failure with the empty response. -/
theorem canceled_context_fails_witness :
    (IntentDispatcher ⟨true⟩ ⟨[], none, none, none⟩
        ⟨"GetRecipeFromIngredientsIntent", []⟩).error ≠ none ∧
    (IntentDispatcher ⟨true⟩ ⟨[], none, none, none⟩
        ⟨"GetRecipeFromIngredientsIntent", []⟩).response = Response.empty :=
  canceled_context_fails ⟨true⟩ ⟨[], none, none, none⟩
    ⟨"GetRecipeFromIngredientsIntent", []⟩ rfl (Or.inr rfl)

/-- Claim C8: every invocation of the dispatcher performs at most one
store query, with no retries. -/
theorem at_most_one_query (ctx : Ctx) (store : Store) (request : Request) :
    (IntentDispatcher ctx store request).queries ≤ 1 := by
  unfold IntentDispatcher
  dsimp only
  split_ifs <;> (repeat' split) <;> simp

/-- Claim C9: on every failure path the response returned alongside the
non-nil error is the zero-valued response, and every nil-error return
carries a response with a non-default title. -/
theorem error_response_shape (ctx : Ctx) (store : Store) (request : Request) :
    ((IntentDispatcher ctx store request).error ≠ none →
      (IntentDispatcher ctx store request).response = Response.empty) ∧
    ((IntentDispatcher ctx store request).error = none →
      (IntentDispatcher ctx store request).response.title ≠ "") := by
  unfold IntentDispatcher
  dsimp only
  split_ifs <;> (repeat' split) <;> simp [NewSimpleResponse, Response.empty]

/-- Witness for C9: a canceled search carries the empty response, and a
successful about request carries a non-default title. -/
theorem error_response_shape_witness :
    (IntentDispatcher ⟨true⟩ ⟨[], none, none, none⟩
        ⟨"GetRecipeFromIngredientsIntent", []⟩).response = Response.empty ∧
    (IntentDispatcher ⟨false⟩ ⟨[], none, none, none⟩
        ⟨"AboutIntent", []⟩).response.title ≠ "" :=
  ⟨(error_response_shape ⟨true⟩ ⟨[], none, none, none⟩
      ⟨"GetRecipeFromIngredientsIntent", []⟩).1 (by decide),
    (error_response_shape ⟨false⟩ ⟨[], none, none, none⟩
      ⟨"AboutIntent", []⟩).2 (by decide)⟩

/-- Claim C10: when the two ingredient slot values are equal, the
search with the duplicated value matches exactly the documents whose
ingredients contain that single value at least once: the duplicated
containment query is equivalent to single-value containment. -/
theorem duplicate_ingredient_query (ctx : Ctx) (store : Store) (request : Request)
    (hintent : request.intentName = "GetRecipeFromIngredientsIntent")
    (hctx : ctx.canceled = false)
    (hfe : store.findErr = none)
    (hce : store.cursorAllErr = none)
    (heq : getSlotValue request.slots "ingredientone" =
      getSlotValue request.slots "ingredienttwo") :
    IntentDispatcher ctx store request =
      { response := ⟨"Recipes",
          concatNames (store.docs.filter (fun r =>
            decide (getSlotValue request.slots "ingredientone" ∈ r.ingredients)))⟩,
        error := none, queries := 1 } := by
  have hfilter : store.docs.filter (fun r =>
      decide (getSlotValue request.slots "ingredientone" ∈ r.ingredients) &&
      decide (getSlotValue request.slots "ingredienttwo" ∈ r.ingredients)) =
    store.docs.filter (fun r =>
      decide (getSlotValue request.slots "ingredientone" ∈ r.ingredients)) := by
    rw [← heq]
    apply List.filter_congr
    intro r _
    simp
  simp [IntentDispatcher, hintent, findAll, cursorAll, hctx, hfe, hce,
    NewSimpleResponse, foldl_name_eq_concatNames, hfilter]

/-- Witness for C10: duplicated value "egg"; a document containing
"egg" once matches. -/
theorem duplicate_ingredient_query_witness :
    IntentDispatcher ⟨false⟩ ⟨[⟨2, "B", ["egg"]⟩], none, none, none⟩
        ⟨"GetRecipeFromIngredientsIntent",
          [("ingredientone", "egg"), ("ingredienttwo", "egg")]⟩ =
      { response := ⟨"Recipes",
          concatNames (([⟨2, "B", ["egg"]⟩] : List Recipe).filter (fun r =>
            decide (getSlotValue
                [("ingredientone", "egg"), ("ingredienttwo", "egg")] "ingredientone"
              ∈ r.ingredients)))⟩,
        error := none, queries := 1 } :=
  duplicate_ingredient_query ⟨false⟩ ⟨[⟨2, "B", ["egg"]⟩], none, none, none⟩
    ⟨"GetRecipeFromIngredientsIntent",
      [("ingredientone", "egg"), ("ingredienttwo", "egg")]⟩
    rfl rfl rfl rfl rfl

end AlexaGo
